import Mathlib

/-!
Verification of the natural-language specification of `src/sql_server.py`
(an MCP server exposing relational-database access) against a shallow
embedding of its core logic in Lean 4.

The embedding covers:
* `format_value`   — scalar rendering (src lines 249-255);
* `format_result`  — vertical row rendering with size-capped truncation
  (src lines 257-293), together with a read-instrumented cursor model;
* `is_cud_operation` — first-token statement classification (src lines 196-220);
* `schema_definitions` — per-table column/PK/FK rendering (src lines 150-193);
* `get_connection` / `create_new_engine` — engine lifecycle with one
  recovery retry (src lines 25-94), as a state machine over an abstract
  environment of connection outcomes, emitting an event trace;
* `execute_query`  — read-only gating, execution and error conversion
  (src lines 239-309).

Database effects (connecting, executing a statement) are oracles supplied
through an `Env` record; machine-level concerns (the real SQLAlchemy pool,
sockets) are outside the embedding, exactly as the spec treats them.
-/

namespace SqlSrv

/-! ### Scalar values and `format_value` (src/sql_server.py lines 249-255) -/

/-- Scalar database values as they reach the formatter: `None`, strings,
integers, booleans, `datetime.date` and `datetime.datetime`. -/
inductive Value where
  | vnull
  | vstr (s : String)
  | vint (n : Int)
  | vbool (b : Bool)
  | vdate (y m d : Nat)
  | vdatetime (y mo d h mi s : Nat)
deriving DecidableEq, Repr

/-- Zero-pad a number to two digits, as Python temporal rendering does. -/
def pad2 (n : Nat) : String :=
  if n < 10 then "0" ++ toString n else toString n

/-- Zero-pad a number to four digits, as Python temporal rendering does. -/
def pad4 (n : Nat) : String :=
  if n < 10 then "000" ++ toString n
  else if n < 100 then "00" ++ toString n
  else if n < 1000 then "0" ++ toString n
  else toString n

/-- `date.isoformat()`: `YYYY-MM-DD`. -/
def isoDate (y m d : Nat) : String :=
  pad4 y ++ "-" ++ pad2 m ++ "-" ++ pad2 d

/-- The time component `HH:MM:SS` of temporal rendering. -/
def isoTime (h mi s : Nat) : String :=
  pad2 h ++ ":" ++ pad2 mi ++ ":" ++ pad2 s

/-- `datetime.isoformat()`: date, a `T` separator, then the time. -/
def isoDatetime (y mo d h mi s : Nat) : String :=
  isoDate y mo d ++ "T" ++ isoTime h mi s

/-- Python `str(val)`, the default string representation of each value.
Note `str` on a `datetime` uses a space separator, not the ISO `T`. -/
def pyStr : Value → String
  | Value.vnull => "None"
  | Value.vstr s => s
  | Value.vint n => toString n
  | Value.vbool b => if b then "True" else "False"
  | Value.vdate y m d => isoDate y m d
  | Value.vdatetime y mo d h mi s => isoDate y mo d ++ " " ++ isoTime h mi s

/-- From src lines 249-255: `format_value(val)` — `None` renders as
`"NULL"`, `datetime`/`date` values via `.isoformat()`, everything else
via `str(val)`. -/
def format_value : Value → String
  | Value.vnull => "NULL"
  | Value.vdate y m d => isoDate y m d
  | Value.vdatetime y mo d h mi s => isoDatetime y mo d h mi s
  | Value.vstr s => pyStr (Value.vstr s)
  | Value.vint n => pyStr (Value.vint n)
  | Value.vbool b => pyStr (Value.vbool b)

/-! ### Result formatting (src/sql_server.py lines 257-293) -/

/-- From src lines 271-274: the rendered block for one row — the
`"<n>. row"` header, one `"<col>: <value>"` line per `zip(keys, row)`
pair, then an empty line. -/
def rowBlock (row_count : Nat) (keys : List String) (row : List Value) : List String :=
  (toString row_count ++ ". row")
    :: ((keys.zip row).map (fun cv => cv.1 ++ ": " ++ format_value cv.2) ++ [""])

/-- From src line 276: the size contribution of one row block,
`sum(len(x) + 1 for x in sub_result)` (the `+ 1` is the line ending). -/
def blockSize (row_count : Nat) (keys : List String) (row : List Value) : Nat :=
  ((rowBlock row_count keys row).map (fun x => x.length + 1)).sum

/-- From src lines 260-282: the accumulation loop of `format_result`.
Arguments mirror the Python locals `size` and `row_count`; the returned
triple is (`result`, final `row_count`, `did_truncate`).  The Python
`if did_truncate: continue` branch is dead code (the flag is only ever
set immediately before `break`), so the loop stops at the first row whose
inclusion pushes `size` over the cap. -/
def formatRows (maxChars : Nat) (keys : List String) :
    List (List Value) → Nat → Nat → List String × Nat × Bool
  | [], _, row_count => ([], row_count, false)
  | row :: rest, size, row_count =>
    if size + blockSize (row_count + 1) keys row > maxChars then
      ([], row_count + 1, true)
    else
      (rowBlock (row_count + 1) keys row
         ++ (formatRows maxChars keys rest (size + blockSize (row_count + 1) keys row) (row_count + 1)).1,
       (formatRows maxChars keys rest (size + blockSize (row_count + 1) keys row) (row_count + 1)).2)

/-- From src lines 257-293: `format_result` after the rows have been
materialized — run the accumulation loop, then emit `"No rows returned"`,
the truncation trailer (`row_count - 1` rows were emitted), or the full
count trailer. -/
def format_result (maxChars : Nat) (keys : List String) (rows : List (List Value)) :
    List String :=
  match formatRows maxChars keys rows 0 0 with
  | (result, row_count, did_truncate) =>
    if row_count = 0 then ["No rows returned"]
    else if did_truncate then
      result ++ ["Result: showing first " ++ toString (row_count - 1) ++ " rows (output truncated)"]
    else
      result ++ ["Result: " ++ toString row_count ++ " rows"]

/-- Spec-side: the concatenated row blocks of a row list, numbered from
`n + 1` upward. -/
def blocksFrom (keys : List String) : List (List Value) → Nat → List String
  | [], _ => []
  | r :: rs, n => rowBlock (n + 1) keys r ++ blocksFrom keys rs (n + 1)

/-- Spec-side: the cumulative rendered size of a row list numbered from
`n + 1` upward (sum over all lines of line length + 1). -/
def sizeFrom (keys : List String) : List (List Value) → Nat → Nat
  | [], _ => 0
  | r :: rs, n => blockSize (n + 1) keys r + sizeFrom keys rs (n + 1)

/-- Spec-side: the cumulative rendered size of the first `k` rows of a
result, numbered from 1. -/
def prefixSize (keys : List String) (rows : List (List Value)) (k : Nat) : Nat :=
  sizeFrom keys (rows.take k) 0

/-! ### Read-instrumented cursor (for the row-consumption claim)

A SQLAlchemy `CursorResult` is a forward-only iterator over rows.  To make
row *reads* observable, the cursor carries the rows not yet read
(`pending`) and an append-only log of the rows read so far (`readLog`). -/

/-- A query result cursor: its column keys, the rows not yet read from the
database, and the log of rows read so far (in read order). -/
structure Cursor where
  keys : List String
  pending : List (List Value)
  readLog : List (List Value)
deriving DecidableEq, Repr

/-- From src line 263: `rows = list(cursor_result)` — reads every pending
row from the cursor, in order, leaving it exhausted. -/
def readAllRows (c : Cursor) : List (List Value) × Cursor :=
  (c.pending, Cursor.mk c.keys [] (c.readLog ++ c.pending))

/-- From src lines 257-293: the whole of `format_result` as it acts on the
cursor — it first materializes every row (`list(cursor_result)`), then
runs the accumulation loop on the materialized list. -/
def format_result_from_cursor (maxChars : Nat) (c : Cursor) : List String × Cursor :=
  (format_result maxChars c.keys (readAllRows c).1, (readAllRows c).2)

/-! ### Statement classification (src/sql_server.py lines 196-220)

Python strings are modelled through their character lists; `str.strip()`,
`str.upper()` and `str.split()` are reimplemented on `List Char` so that
the classifier can be reasoned about on arbitrary input. -/

/-- The whitespace class used by Python `str.strip()` / `str.split()`
(ASCII whitespace). -/
def pyIsSpace (c : Char) : Bool :=
  c == ' ' || c == '\t' || c == '\n' || c == '\r' || c == '\x0b' || c == '\x0c'

/-- The lower-to-upper letter table of Python `str.upper()` on ASCII. -/
def upperPairs : List (Char × Char) :=
  [('a', 'A'), ('b', 'B'), ('c', 'C'), ('d', 'D'), ('e', 'E'), ('f', 'F'),
   ('g', 'G'), ('h', 'H'), ('i', 'I'), ('j', 'J'), ('k', 'K'), ('l', 'L'),
   ('m', 'M'), ('n', 'N'), ('o', 'O'), ('p', 'P'), ('q', 'Q'), ('r', 'R'),
   ('s', 'S'), ('t', 'T'), ('u', 'U'), ('v', 'V'), ('w', 'W'), ('x', 'X'),
   ('y', 'Y'), ('z', 'Z')]

/-- Upper-case one character: look it up in the letter table, otherwise
leave it unchanged. -/
def pyUpperChar (c : Char) : Char :=
  match upperPairs.find? (fun p => p.1 == c) with
  | some p => p.2
  | none => c

/-- Python `str.upper()` on a character list. -/
def upperL (l : List Char) : List Char := l.map pyUpperChar

/-- Python `str.strip()` on a character list: drop leading and trailing
whitespace. -/
def stripL (l : List Char) : List Char :=
  ((l.dropWhile pyIsSpace).reverse.dropWhile pyIsSpace).reverse

/-- Python `str.split()` (no separator) on a character list: split on runs
of whitespace, discarding empty tokens.  `acc` holds the characters of the
token in progress, in reverse. -/
def splitL : List Char → List Char → List (List Char)
  | [], acc => if acc = [] then [] else [acc.reverse]
  | c :: cs, acc =>
    if pyIsSpace c then
      if acc = [] then splitL cs [] else acc.reverse :: splitL cs []
    else splitL cs (c :: acc)

/-- From src lines 201-212: the write/DDL keyword list. -/
def cud_keywords : List String :=
  ["INSERT", "UPDATE", "DELETE", "CREATE", "DROP", "ALTER",
   "TRUNCATE", "REPLACE", "MERGE", "UPSERT"]

/-- From src lines 196-220: `is_cud_operation(query)` — strip and
upper-case the query, split on whitespace, and test whether the first
word is in the keyword list (`False` when there are no words). -/
def is_cud_operation (query : String) : Bool :=
  let query_upper := String.mk (upperL (stripL query.toList))
  let words := (splitL query_upper.toList []).map String.mk
  match words with
  | [] => false
  | first_keyword :: _ => cud_keywords.contains first_keyword

/-! ### Schema rendering (src/sql_server.py lines 150-193)

The SQLAlchemy inspector's answers are the input data: each column arrives
as an ordered dict whose `name` and `type` entries are popped first and
whose `comment` entry (when present) is deleted; the remaining entries are
rendered in dict order.  `TableInfo` carries those answers. -/

/-- An attribute value in a column dict, with Python truthiness. -/
inductive AttrVal where
  | abool (b : Bool)
  | astr (s : String)
  | anone
  | aint (n : Int)
deriving DecidableEq, Repr

/-- Python truthiness of an attribute value (`if v` in the comprehension):
`False`, `""`, `None` and `0` are falsy. -/
def AttrVal.truthy : AttrVal → Bool
  | AttrVal.abool b => b
  | AttrVal.astr s => s ≠ ""
  | AttrVal.anone => false
  | AttrVal.aint n => n ≠ 0

/-- Python `str(v)` of an attribute value, as used in `f"{k}={v}"`. -/
def AttrVal.render : AttrVal → String
  | AttrVal.abool b => if b then "True" else "False"
  | AttrVal.astr s => s
  | AttrVal.anone => "None"
  | AttrVal.aint n => toString n

/-- One column as reported by `inspector.get_columns`: its `name`, the
text rendering of its `type`, and the remaining dict entries in dict
order (possibly including a `comment` entry). -/
structure ColumnInfo where
  name : String
  type : String
  attrs : List (String × AttrVal)
deriving DecidableEq, Repr

/-- One foreign key as reported by `inspector.get_foreign_keys`. -/
structure FKInfo where
  constrained_columns : List String
  referred_table : String
  referred_columns : List String
deriving DecidableEq, Repr

/-- One table as reported by the inspector: columns in catalog order,
foreign keys, and the primary-key constraint's column-name set. -/
structure TableInfo where
  name : String
  columns : List ColumnInfo
  foreign_keys : List FKInfo
  primary_keys : List String
deriving DecidableEq, Repr

/-- From src line 160: `show_key_only = {"nullable", "autoincrement"}`. -/
def show_key_only : List String := ["nullable", "autoincrement"]

/-- From src lines 161-174: render one column line — delete `comment` if
present, prepend `"primary key"` when the name is in the primary-key set,
then the type, then every remaining truthy attribute (bare key for the
`show_key_only` keys, `k=v` otherwise), comma-joined after `"    <name>: "`. -/
def format_column (primary_keys : List String) (col : ColumnInfo) : String :=
  "    " ++ col.name ++ ": " ++ String.intercalate ", "
    ((if primary_keys.contains col.name then ["primary key"] else [])
     ++ [col.type]
     ++ ((col.attrs.filter (fun kv => kv.1 ≠ "comment")).filter
           (fun kv => kv.2.truthy)).map
          (fun kv => if show_key_only.contains kv.1 then kv.1
                     else kv.1 ++ "=" ++ AttrVal.render kv.2))

/-- From src lines 151-187: `format_schema` — the `"<table>:"` header, the
column lines, and (when foreign keys exist) a blank line, the
`"    Relationships:"` header and one arrow line per foreign key, joined
with newlines. -/
def format_schema (t : TableInfo) : String :=
  String.intercalate "\n"
    (((t.name ++ ":") :: t.columns.map (format_column t.primary_keys))
     ++ (if t.foreign_keys.isEmpty then []
         else ["", "    Relationships:"]
           ++ t.foreign_keys.map (fun fk =>
                "        " ++ String.intercalate ", " fk.constrained_columns
                  ++ " -> " ++ fk.referred_table ++ "."
                  ++ String.intercalate ", " fk.referred_columns)))

/-- From src lines 189-193: `schema_definitions` — each requested table's
description, joined with a blank-line (`"\n\n"`) separator. -/
def schema_definitions (tables : List TableInfo) : String :=
  String.intercalate "\n\n" (tables.map format_schema)

/-- Modelled from the spec's rendering rules (§4.2 / claim wording), to be
compared with `schema_definitions`: parts begin with `"primary key"`
exactly when the column is in the primary-key set, then the type, then
for each remaining truthy attribute the bare name for `nullable` /
`autoincrement` and `"<attr>=<value>"` otherwise. -/
def spec_column_line (pks : List String) (c : ColumnInfo) : String :=
  "    " ++ c.name ++ ": " ++ String.intercalate ", "
    ((if pks.contains c.name then ["primary key"] else [])
     ++ [c.type]
     ++ (c.attrs.filter (fun kv => kv.1 ≠ "comment")).filterMap
          (fun kv =>
            if kv.2.truthy then
              some (if kv.1 = "nullable" ∨ kv.1 = "autoincrement" then kv.1
                    else kv.1 ++ "=" ++ AttrVal.render kv.2)
            else none))

/-- Modelled from the spec's rendering rules: header line, column lines in
catalog order, then — only if foreign keys exist — a blank line, the
relationships header and one `"<local> -> <table>.<referenced>"` line per
foreign key. -/
def spec_table_text (t : TableInfo) : String :=
  String.intercalate "\n"
    (((t.name ++ ":") :: t.columns.map (spec_column_line t.primary_keys))
     ++ (if t.foreign_keys = [] then []
         else ["", "    Relationships:"]
           ++ t.foreign_keys.map (fun fk =>
                "        " ++ String.intercalate ", " fk.constrained_columns
                  ++ " -> " ++ fk.referred_table ++ "."
                  ++ String.intercalate ", " fk.referred_columns)))

/-- Modelled from the spec: table descriptions joined with a blank-line
separator. -/
def spec_describe (tables : List TableInfo) : String :=
  String.intercalate "\n\n" (tables.map spec_table_text)

/-! ### Engine lifecycle (src/sql_server.py lines 25-94)

Engines are identified by allocation order (`Nat`).  The process-wide
`ENGINE` global and the fresh-id counter form the state `St`; the database
boundary is an oracle environment `Env` (is a URL configured, does a
`connect()` on a given engine succeed, what does executing a statement
return).  Every call emits a trace of engine events so that lifecycle
claims (creation, disposal, number of connection attempts) are statable. -/

/-- The error taxonomy of the spec (§7): a missing/invalid URL is a
configuration error, a failed connection (after the one retry) is a
connection error carrying the underlying cause. -/
inductive SqlError where
  | configError (msg : String)
  | connError (cause : String)
deriving DecidableEq, Repr

/-- Python `str(e)` of a propagated exception. -/
def sqlErrorMsg : SqlError → String
  | SqlError.configError m => m
  | SqlError.connError m => m

/-- The `ValueError` message of src lines 50-52. -/
def dbUrlMissingMsg : String :=
  "DB_URL environment variable is not set. Please set it to your database connection string."

/-- Observable engine-lifecycle events: an engine is constructed, a
`connect()` is attempted on it, or it is disposed. -/
inductive Ev where
  | create (id : Nat)
  | connect (id : Nat)
  | dispose (id : Nat)
deriving DecidableEq, Repr

/-- What a statement execution on an open connection produces: an
exception, a row-less result with an affected-row count, or a row set. -/
inductive RunOutcome where
  | raises (msg : String)
  | noRows (rowcount : Int)
  | rows (keys : List String) (rows : List (List Value))
deriving DecidableEq, Repr

/-- The database-boundary oracle: whether `DB_URL` is configured, the
outcome of `connect()` per engine id, whether `dispose()` raises per
engine id (swallowed by the code either way), and the outcome of
executing a statement with bound parameters. -/
structure Env where
  dbUrl : Option String
  connect : Nat → Except String Unit
  disposeFails : Nat → Bool
  run : String → List (String × Value) → RunOutcome

/-- The process-wide state: the `ENGINE` global (engine id or `None`) and
the next fresh engine id. -/
structure St where
  engine : Option Nat
  nextId : Nat
deriving DecidableEq, Repr

/-- From src lines 76-90: the `except` branch of `get_connection` — the
current engine (never `None` on the paths that reach here, but the code
guards anyway) is disposed best-effort, a brand-new engine is constructed
(`ValueError` when no URL is configured), and exactly one more `connect()`
is attempted; its failure propagates as the connection error. -/
def gcRecover (env : Env) (s : St) (tr : List Ev) : Except SqlError Nat × St × List Ev :=
  let tr2 := tr ++ (match s.engine with
                    | some id => [Ev.dispose id]
                    | none => [])
  match env.dbUrl with
  | none => (Except.error (SqlError.configError dbUrlMissingMsg), s, tr2)
  | some _ =>
    match env.connect s.nextId with
    | Except.ok _ =>
      (Except.ok s.nextId, St.mk (some s.nextId) (s.nextId + 1),
       tr2 ++ [Ev.create s.nextId, Ev.connect s.nextId])
    | Except.error c =>
      (Except.error (SqlError.connError c), St.mk (some s.nextId) (s.nextId + 1),
       tr2 ++ [Ev.create s.nextId, Ev.connect s.nextId])

/-- From src lines 64-90: attempt `ENGINE.connect()` on engine `id`; on
success return the connection (the best-effort session-version tag of
lines 67-72 is swallowed and unobservable, so it is a no-op here), on
failure fall through to the recovery branch. -/
def gcAttempt (env : Env) (s : St) (id : Nat) (tr : List Ev) :
    Except SqlError Nat × St × List Ev :=
  match env.connect id with
  | Except.ok _ => (Except.ok id, s, tr ++ [Ev.connect id])
  | Except.error _ => gcRecover env s (tr ++ [Ev.connect id])

/-- From src lines 56-94: `get_connection()` — create the engine on first
demand (when no URL is configured the creation's `ValueError` reaches the
recovery branch, which fails the same way, and the outer handler
re-raises), then attempt to connect with one fresh-engine retry. -/
def get_connection (env : Env) (s : St) : Except SqlError Nat × St × List Ev :=
  match s.engine with
  | none =>
    match env.dbUrl with
    | none => (Except.error (SqlError.configError dbUrlMissingMsg), s, [])
    | some _ =>
      gcAttempt env (St.mk (some s.nextId) (s.nextId + 1)) s.nextId [Ev.create s.nextId]
  | some e0 => gcAttempt env s e0 []

/-- From src lines 239-309: `execute_query(query, params)` with the
read-only flag and character cap as explicit inputs (they are
process-wide constants in the source).  The read-only gate answers before
any connection work; otherwise a connection is acquired via
`get_connection`, the statement runs, and any raised error is converted
to `"Error: <message>"` text. -/
def execute_query (readOnly : Bool) (maxChars : Nat) (env : Env) (s : St)
    (query : String) (params : Option (List (String × Value))) :
    String × St × List Ev :=
  if readOnly && is_cud_operation query then
    ("Error: READ-ONLY MODE is enabled. Only SELECT queries are allowed. CUD operations (CREATE, UPDATE, DELETE) are blocked.",
     s, [])
  else
    match get_connection env s with
    | (Except.error e, s2, tr) => ("Error: " ++ sqlErrorMsg e, s2, tr)
    | (Except.ok _, s2, tr) =>
      match env.run query (params.getD []) with
      | RunOutcome.raises m => ("Error: " ++ m, s2, tr)
      | RunOutcome.noRows rc => ("Success: " ++ toString rc ++ " rows affected", s2, tr)
      | RunOutcome.rows keys rows =>
        (String.intercalate "\n" (format_result maxChars keys rows), s2, tr)

/-- Number of `connect()` attempts in a trace. -/
def numConnects (tr : List Ev) : Nat :=
  (tr.filter (fun ev => match ev with
                        | Ev.connect _ => true
                        | _ => false)).length

/-- Apply one event to the set of live (constructed, not yet disposed)
engines. -/
def applyEv (live : List Nat) : Ev → List Nat
  | Ev.create id => live ++ [id]
  | Ev.dispose id => live.filter (fun x => x ≠ id)
  | Ev.connect _ => live

/-- The live-engine set after a trace. -/
def liveAfter (live : List Nat) : List Ev → List Nat
  | [] => live
  | ev :: tr => liveAfter (applyEv live ev) tr

/-- A trace keeps the live-engine set at size at most one at every
intermediate point, starting from `live`. -/
def boundedFrom (live : List Nat) (tr : List Ev) : Prop :=
  ∀ n, (liveAfter live (tr.take n)).length ≤ 1

/-- A sequence of `get_connection` calls (one environment per call),
threading the process-wide state and concatenating the event traces. -/
def runCalls : List Env → St → St × List Ev
  | [], s => (s, [])
  | env :: rest, s =>
    match get_connection env s with
    | (_, s1, tr1) =>
      match runCalls rest s1 with
      | (s2, tr2) => (s2, tr1 ++ tr2)

/-- The state invariant tying the `ENGINE` global to the live-engine set:
at most one live engine, every live engine is the current one, and all
known ids are below the fresh-id counter. -/
def stInv (s : St) (live : List Nat) : Prop :=
  live.length ≤ 1
  ∧ (∀ id ∈ live, s.engine = some id)
  ∧ (∀ id ∈ live, id < s.nextId)
  ∧ (∀ id, s.engine = some id → id < s.nextId)

/-- A concrete oracle environment with a configured URL, connections that
always succeed, and executions that always raise. -/
def envW1 : Env :=
  Env.mk (some "sqlite:///latest_db.db") (fun _ => Except.ok ())
    (fun _ => false) (fun _ _ => RunOutcome.raises "boom")

/-- A concrete oracle environment with no configured URL. -/
def envW2 : Env :=
  Env.mk none (fun _ => Except.ok ()) (fun _ => false)
    (fun _ _ => RunOutcome.raises "boom")

/-- A concrete oracle environment whose connections always fail. -/
def envFail : Env :=
  Env.mk (some "sqlite:///latest_db.db") (fun _ => Except.error "down")
    (fun _ => false) (fun _ _ => RunOutcome.raises "boom")

/-! ## Theorems -/

/-- C9: `format_value` renders `None` as exactly `"NULL"`, renders date
and timestamp values as their ISO-8601 text, and renders every other
value by its default string representation, with no other
pretty-printing. -/
theorem C9_format_value_contract :
    format_value Value.vnull = "NULL"
    ∧ (∀ y m d, format_value (Value.vdate y m d) = isoDate y m d)
    ∧ (∀ y mo d h mi s, format_value (Value.vdatetime y mo d h mi s) = isoDatetime y mo d h mi s)
    ∧ (∀ s, format_value (Value.vstr s) = pyStr (Value.vstr s))
    ∧ (∀ n, format_value (Value.vint n) = pyStr (Value.vint n))
    ∧ (∀ b, format_value (Value.vbool b) = pyStr (Value.vbool b)) :=
  ⟨rfl, fun _ _ _ => rfl, fun _ _ _ _ _ _ => rfl,
   fun _ => rfl, fun _ => rfl, fun _ => rfl⟩

/-- C1: in read-only mode, `execute_query` on any statement classified as
write/DDL returns the fixed rejection text, leaves the engine state
untouched, and emits no engine events at all — in particular no
connection acquisition occurs before returning. -/
theorem C1_readonly_gate (env : Env) (s : St) (q : String)
    (params : Option (List (String × Value))) (maxChars : Nat)
    (h : is_cud_operation q = true) :
    execute_query true maxChars env s q params =
      ("Error: READ-ONLY MODE is enabled. Only SELECT queries are allowed. CUD operations (CREATE, UPDATE, DELETE) are blocked.",
       s, [])
    ∧ numConnects (execute_query true maxChars env s q params).2.2 = 0 := by
  have hg : (true && is_cud_operation q) = true := by rw [h]; rfl
  constructor
  · simp [execute_query, hg]
  · simp [execute_query, hg, numConnects]

theorem C1_readonly_gate_witness :
    is_cud_operation "DROP TABLE users" = true
    ∧ (execute_query true 4000 envW1 (St.mk none 0) "DROP TABLE users" none =
        ("Error: READ-ONLY MODE is enabled. Only SELECT queries are allowed. CUD operations (CREATE, UPDATE, DELETE) are blocked.",
         St.mk none 0, [])
       ∧ numConnects (execute_query true 4000 envW1 (St.mk none 0) "DROP TABLE users" none).2.2 = 0) :=
  ⟨by decide,
   C1_readonly_gate envW1 (St.mk none 0) "DROP TABLE users" none 4000 (by decide)⟩

/-- C4: whenever the read-only gate does not fire, every failure raised
during connection acquisition or statement execution is caught and
converted to the text `"Error: <message>"` with the failure's own
description; `execute_query` is a total function into text, so no
exception ever reaches the caller. -/
theorem C4_exception_to_text (env : Env) (s : St) (q : String)
    (params : Option (List (String × Value))) (readOnly : Bool) (maxChars : Nat)
    (hgate : (readOnly && is_cud_operation q) = false) :
    (∀ e s2 tr, get_connection env s = (Except.error e, s2, tr) →
       execute_query readOnly maxChars env s q params = ("Error: " ++ sqlErrorMsg e, s2, tr))
    ∧ (∀ cid s2 tr m, get_connection env s = (Except.ok cid, s2, tr) →
         env.run q (params.getD []) = RunOutcome.raises m →
         execute_query readOnly maxChars env s q params = ("Error: " ++ m, s2, tr)) := by
  constructor
  · intro e s2 tr hconn
    simp [execute_query, hgate, hconn]
  · intro cid s2 tr m hconn hrun
    simp [execute_query, hgate, hconn, hrun]

theorem C4_exception_to_text_witness :
    ((true && is_cud_operation "SELECT 1") = false)
    ∧ execute_query true 4000 envW2 (St.mk none 0) "SELECT 1" none =
        ("Error: " ++ sqlErrorMsg (SqlError.configError dbUrlMissingMsg), St.mk none 0, [])
    ∧ execute_query true 4000 envW1 (St.mk none 0) "SELECT 1" none =
        ("Error: " ++ "boom", St.mk (some 0) 1, [Ev.create 0, Ev.connect 0]) :=
  ⟨by decide,
   (C4_exception_to_text envW2 (St.mk none 0) "SELECT 1" none true 4000 (by decide)).1
     (SqlError.configError dbUrlMissingMsg) (St.mk none 0) [] rfl,
   (C4_exception_to_text envW1 (St.mk none 0) "SELECT 1" none true 4000 (by decide)).2
     0 (St.mk (some 0) 1) [Ev.create 0, Ev.connect 0] "boom" rfl rfl⟩

/-- C10: the read-only rejection text is exactly the fixed sentence
beginning with `"Error: "`, and both exception-conversion paths also
produce text beginning with `"Error: "`, so the prefix cannot
distinguish a policy rejection from an execution error. -/
theorem C10_rejection_error_prefix :
    (∀ env s q params maxChars, is_cud_operation q = true →
       (execute_query true maxChars env s q params).1 =
         "Error: READ-ONLY MODE is enabled. Only SELECT queries are allowed. CUD operations (CREATE, UPDATE, DELETE) are blocked."
       ∧ ∃ rest, (execute_query true maxChars env s q params).1 = "Error: " ++ rest)
    ∧ (∀ env s q params readOnly maxChars e s2 tr,
         (readOnly && is_cud_operation q) = false →
         get_connection env s = (Except.error e, s2, tr) →
         ∃ rest, (execute_query readOnly maxChars env s q params).1 = "Error: " ++ rest)
    ∧ (∀ env (s : St) q params readOnly maxChars cid s2 tr m,
         (readOnly && is_cud_operation q) = false →
         get_connection env s = (Except.ok cid, s2, tr) →
         env.run q (params.getD []) = RunOutcome.raises m →
         ∃ rest, (execute_query readOnly maxChars env s q params).1 = "Error: " ++ rest) := by
  refine ⟨?_, ?_, ?_⟩
  · intro env s q params maxChars h
    have hg : (true && is_cud_operation q) = true := by rw [h]; rfl
    constructor
    · simp [execute_query, hg]
    · exact ⟨"READ-ONLY MODE is enabled. Only SELECT queries are allowed. CUD operations (CREATE, UPDATE, DELETE) are blocked.",
             by simp [execute_query, hg]⟩
  · intro env s q params readOnly maxChars e s2 tr hgate hconn
    exact ⟨sqlErrorMsg e, by simp [execute_query, hgate, hconn]⟩
  · intro env s q params readOnly maxChars cid s2 tr m hgate hconn hrun
    exact ⟨m, by simp [execute_query, hgate, hconn, hrun]⟩

/-- Upper-casing a character either leaves it unchanged or follows the
lower-to-upper letter table. -/
lemma upper_cases (c : Char) : pyUpperChar c = c ∨ (c, pyUpperChar c) ∈ upperPairs := by
  unfold pyUpperChar
  cases h : upperPairs.find? (fun p => p.1 == c) with
  | none => exact Or.inl rfl
  | some p =>
    right
    have hmem : p ∈ upperPairs := List.mem_of_find?_eq_some h
    have hp := List.find?_some h
    have hc : p.1 = c := by simpa using hp
    have hpair : (c, p.2) = p := by rw [← hc]
    rw [hpair]
    exact hmem

/-- Upper-casing never changes whether a character is whitespace. -/
lemma pyIsSpace_pyUpperChar (c : Char) : pyIsSpace (pyUpperChar c) = pyIsSpace c := by
  rcases upper_cases c with h | h
  · rw [h]
  · have h2 : ∀ p ∈ upperPairs, pyIsSpace p.1 = false ∧ pyIsSpace p.2 = false := by decide
    obtain ⟨hc, hu⟩ := h2 (c, pyUpperChar c) h
    exact hu.trans hc.symm

/-- Splitting on whitespace commutes with upper-casing: upper-casing the
whole text and then splitting yields the upper-cased tokens. -/
lemma splitL_map_upper (l : List Char) :
    ∀ acc, splitL (l.map pyUpperChar) (acc.map pyUpperChar) =
      (splitL l acc).map (List.map pyUpperChar) := by
  induction l with
  | nil =>
    intro acc
    by_cases h : acc = []
    · subst h; simp [splitL]
    · have h2 : acc.map pyUpperChar ≠ [] := by simpa using h
      simp [splitL, h, h2]
  | cons c cs ih =>
    intro acc
    have hups := pyIsSpace_pyUpperChar c
    cases hb : pyIsSpace c with
    | false =>
      rw [hb] at hups
      simp only [List.map_cons, splitL, hups, hb, Bool.false_eq_true, if_false]
      exact ih (c :: acc)
    | true =>
      rw [hb] at hups
      by_cases ha : acc = []
      · subst ha
        simp only [List.map_nil, splitL, hups, hb, if_true]
        exact ih []
      · have ha2 : acc.map pyUpperChar ≠ [] := by simpa using ha
        simp only [List.map_cons, splitL, hups, hb, if_true, ha, ha2, if_false,
          List.map_reverse]
        exact congrArg (List.cons _) (ih [])

/-- C3: `is_cud_operation` trims the input, splits it on whitespace, and
returns the write/DDL classification exactly when the upper-cased first
token is in the fixed keyword set `cud_keywords` (INSERT, UPDATE, DELETE,
CREATE, DROP, ALTER, TRUNCATE, REPLACE, MERGE, UPSERT); every other
input — including empty and whitespace-only strings — classifies as
READ (`false`). -/
theorem C3_classifier :
    (∀ q : String,
       is_cud_operation q = true ↔
         ∃ t rest, splitL (stripL q.toList) [] = t :: rest
           ∧ cud_keywords.contains (String.mk (upperL t)) = true)
    ∧ is_cud_operation "" = false
    ∧ is_cud_operation " \t\x0c " = false := by
  refine ⟨?_, by decide, by decide⟩
  intro q
  have hsplit : splitL (upperL (stripL q.toList)) [] =
      (splitL (stripL q.toList) []).map upperL := splitL_map_upper _ []
  have hic : is_cud_operation q =
      match (splitL (upperL (stripL q.toList)) []).map String.mk with
      | [] => false
      | w :: _ => cud_keywords.contains w := rfl
  cases h : splitL (stripL q.toList) [] with
  | nil =>
    rw [hic, hsplit, h]
    simp
  | cons t rest =>
    rw [hic, hsplit, h]
    show cud_keywords.contains (String.mk (upperL t)) = true ↔ _
    constructor
    · intro hc
      exact ⟨t, rest, rfl, hc⟩
    · rintro ⟨t', rest', heq, hc⟩
      injection heq with h1 h2
      rw [h1]
      exact hc

theorem C10_rejection_error_prefix_witness :
    is_cud_operation "DROP TABLE users" = true
    ∧ ((execute_query true 4000 envW1 (St.mk none 0) "DROP TABLE users" none).1 =
         "Error: READ-ONLY MODE is enabled. Only SELECT queries are allowed. CUD operations (CREATE, UPDATE, DELETE) are blocked."
       ∧ ∃ rest, (execute_query true 4000 envW1 (St.mk none 0) "DROP TABLE users" none).1 =
           "Error: " ++ rest)
    ∧ (∃ rest, (execute_query true 4000 envW2 (St.mk none 0) "SELECT 1" none).1 =
         "Error: " ++ rest)
    ∧ (∃ rest, (execute_query true 4000 envW1 (St.mk none 0) "SELECT 1" none).1 =
         "Error: " ++ rest) :=
  ⟨by decide,
   C10_rejection_error_prefix.1 envW1 (St.mk none 0) "DROP TABLE users" none 4000 (by decide),
   C10_rejection_error_prefix.2.1 envW2 (St.mk none 0) "SELECT 1" none true 4000
     (SqlError.configError dbUrlMissingMsg) (St.mk none 0) [] (by decide) rfl,
   C10_rejection_error_prefix.2.2 envW1 (St.mk none 0) "SELECT 1" none true 4000
     0 (St.mk (some 0) 1) [Ev.create 0, Ev.connect 0] "boom" (by decide) rfl rfl⟩

/-- Membership in the `show_key_only` set, spelled out. -/
lemma contains_show_key (k : String) :
    show_key_only.contains k = true ↔ k = "nullable" ∨ k = "autoincrement" := by
  simp [show_key_only]

/-- A list comprehension with a filter clause (`filter` then `map`) is a
`filterMap`. -/
lemma filter_map_eq_filterMap {α β : Type} (p : α → Bool) (f : α → β) (l : List α) :
    (l.filter p).map f = l.filterMap (fun a => if p a then some (f a) else none) := by
  induction l with
  | nil => rfl
  | cons a l ih =>
    by_cases h : p a <;> simp [List.filter_cons, List.filterMap_cons, h, ih]

/-- The code's column line coincides with the spec's column line. -/
lemma format_column_eq_spec (pks : List String) (c : ColumnInfo) :
    format_column pks c = spec_column_line pks c := by
  unfold format_column spec_column_line
  rw [filter_map_eq_filterMap]
  have hfun : (fun (kv : String × AttrVal) =>
        if kv.2.truthy then
          some (if show_key_only.contains kv.1 then kv.1
                else kv.1 ++ "=" ++ AttrVal.render kv.2)
        else none)
      = (fun (kv : String × AttrVal) =>
          if kv.2.truthy then
            some (if kv.1 = "nullable" ∨ kv.1 = "autoincrement" then kv.1
                  else kv.1 ++ "=" ++ AttrVal.render kv.2)
          else none) := by
    funext kv
    by_cases ht : kv.2.truthy
    · simp only [ht, if_true]
      congr 1
      by_cases hk : kv.1 = "nullable" ∨ kv.1 = "autoincrement"
      · rw [if_pos ((contains_show_key kv.1).mpr hk), if_pos hk]
      · rw [if_neg (fun hh => hk ((contains_show_key kv.1).mp hh)), if_neg hk]
    · simp [ht]
  rw [hfun]

/-- The code's per-table text coincides with the spec's per-table text. -/
lemma format_schema_eq_spec (t : TableInfo) : format_schema t = spec_table_text t := by
  unfold format_schema spec_table_text
  have hcols : t.columns.map (format_column t.primary_keys)
      = t.columns.map (spec_column_line t.primary_keys) :=
    List.map_congr_left (fun c _ => format_column_eq_spec t.primary_keys c)
  rw [hcols]
  cases hfk : t.foreign_keys with
  | nil => simp
  | cons fk fks => simp

/-- C7: `schema_definitions` renders, for every table, the `"<table>:"`
header, one line per column in catalog order of the form
`"    <name>: "` plus comma-joined parts (`"primary key"` exactly when
the name is in the primary-key set, then the type text, then each
remaining truthy attribute as its bare name for `nullable` /
`autoincrement` and as `"<attr>=<value>"` otherwise); when foreign keys
exist it appends a blank line, `"    Relationships:"`, and one
`"        <local> -> <table>.<referenced>"` line per foreign key; and it
joins the table descriptions with a blank-line separator. -/
theorem C7_schema_render (tables : List TableInfo) :
    schema_definitions tables = spec_describe tables := by
  unfold schema_definitions spec_describe
  rw [List.map_congr_left (fun t _ => format_schema_eq_spec t)]

/-- When the running size passes the cap, the accumulation loop stops at
the first overflowing row: it returns exactly the blocks of the longest
prefix that fits, with the final `row_count` one past that prefix and the
truncation flag set. -/
lemma formatRows_trunc (maxChars : Nat) (keys : List String) :
    ∀ (rows : List (List Value)) (size0 rc0 : Nat),
      size0 ≤ maxChars →
      maxChars < size0 + sizeFrom keys rows rc0 →
      ∃ k, k < rows.length
        ∧ size0 + sizeFrom keys (rows.take k) rc0 ≤ maxChars
        ∧ maxChars < size0 + sizeFrom keys (rows.take (k + 1)) rc0
        ∧ formatRows maxChars keys rows size0 rc0 =
            (blocksFrom keys (rows.take k) rc0, rc0 + k + 1, true) := by
  intro rows
  induction rows with
  | nil =>
    intro size0 rc0 h1 h2
    simp [sizeFrom] at h2
    omega
  | cons r rs ih =>
    intro size0 rc0 h1 h2
    by_cases hov : size0 + blockSize (rc0 + 1) keys r > maxChars
    · refine ⟨0, by simp, ?_, ?_, ?_⟩
      · simpa [sizeFrom] using h1
      · simpa [sizeFrom] using hov
      · simp [formatRows, hov, blocksFrom]
    · push_neg at hov
      have h2' : maxChars < (size0 + blockSize (rc0 + 1) keys r) + sizeFrom keys rs (rc0 + 1) := by
        simp only [sizeFrom] at h2
        omega
      obtain ⟨k, hk, hle, hgt, heq⟩ := ih (size0 + blockSize (rc0 + 1) keys r) (rc0 + 1) hov h2'
      refine ⟨k + 1, by simpa using Nat.succ_lt_succ hk, ?_, ?_, ?_⟩
      · simp only [List.take_succ_cons, sizeFrom]
        omega
      · simp only [List.take_succ_cons, sizeFrom]
        omega
      · simp only [formatRows]
        rw [if_neg (by omega)]
        rw [heq]
        simp only [List.take_succ_cons, blocksFrom, Prod.mk.injEq]
        exact ⟨trivial, by omega, trivial⟩

/-- C2: whenever the cumulative rendered size of all rows (each rendered
line's length plus one for its terminator) exceeds `maxChars`,
`format_result` emits exactly the whole row blocks of the longest prefix
that fits under the cap, in order — never a partial row, omitting the row
whose inclusion would exceed the cap — and appends the trailing line
`"Result: showing first <rows emitted> rows (output truncated)"`
reporting exactly the number of rows emitted. -/
theorem C2_truncation (maxChars : Nat) (keys : List String) (rows : List (List Value))
    (h : maxChars < prefixSize keys rows rows.length) :
    ∃ k, k < rows.length
      ∧ prefixSize keys rows k ≤ maxChars
      ∧ maxChars < prefixSize keys rows (k + 1)
      ∧ format_result maxChars keys rows =
          blocksFrom keys (rows.take k) 0
            ++ ["Result: showing first " ++ toString k ++ " rows (output truncated)"] := by
  have h2 : maxChars < 0 + sizeFrom keys rows 0 := by
    simpa [prefixSize, List.take_length] using h
  obtain ⟨k, hk, hle, hgt, heq⟩ :=
    formatRows_trunc maxChars keys rows 0 0 (Nat.zero_le _) h2
  refine ⟨k, hk, ?_, ?_, ?_⟩
  · simpa [prefixSize] using hle
  · simpa [prefixSize] using hgt
  · unfold format_result
    rw [heq]
    simp

theorem C2_truncation_witness :
    5 < prefixSize ["a"] [[Value.vstr "0123456789"], [Value.vstr "x"]] 2
    ∧ ∃ k, k < ([[Value.vstr "0123456789"], [Value.vstr "x"]] : List (List Value)).length
        ∧ prefixSize ["a"] [[Value.vstr "0123456789"], [Value.vstr "x"]] k ≤ 5
        ∧ 5 < prefixSize ["a"] [[Value.vstr "0123456789"], [Value.vstr "x"]] (k + 1)
        ∧ format_result 5 ["a"] [[Value.vstr "0123456789"], [Value.vstr "x"]] =
            blocksFrom ["a"] ([[Value.vstr "0123456789"], [Value.vstr "x"]].take k) 0
              ++ ["Result: showing first " ++ toString k ++ " rows (output truncated)"] :=
  ⟨by decide,
   C2_truncation 5 ["a"] [[Value.vstr "0123456789"], [Value.vstr "x"]] (by decide)⟩

/-- C6 counterexample: with cap 5 and two rows whose first block alone
exceeds the cap, the overflow-causing row is row 1 (the rendered size of
the one-row prefix already exceeds the cap), yet the cursor's read log
after `format_result` contains both rows — `list(cursor_result)` on
src line 263 reads every row before the size check, so a row beyond the
one that causes the overflow is read from the result, refuting the claim
as stated. -/
theorem C6_counterexample :
    prefixSize ["a"] [[Value.vstr "0123456789"], [Value.vstr "x"]] 1 > 5
    ∧ ((format_result_from_cursor 5
          (Cursor.mk ["a"] [[Value.vstr "0123456789"], [Value.vstr "x"]] [])).2).readLog
        = [[Value.vstr "0123456789"], [Value.vstr "x"]] := by
  constructor
  · decide
  · rfl

/-- C6 amended: during result formatting every row of the query result is
read exactly once, in order — the whole result is materialized up front,
leaving the cursor exhausted — so reading does not stop when the size cap
is hit; only the rendering loop stops there. -/
theorem C6_amended (maxChars : Nat) (c : Cursor) :
    ((format_result_from_cursor maxChars c).2).readLog = c.readLog ++ c.pending
    ∧ ((format_result_from_cursor maxChars c).2).pending = [] :=
  ⟨rfl, rfl⟩

lemma gc_no_url (env : Env) (s : St) (h1 : s.engine = none) (h2 : env.dbUrl = none) :
    get_connection env s = (Except.error (SqlError.configError dbUrlMissingMsg), s, []) := by
  simp [get_connection, h1, h2]

lemma gc_reuse (env : Env) (s : St) (E : Nat) (h1 : s.engine = some E)
    (h2 : env.connect E = Except.ok ()) :
    get_connection env s = (Except.ok E, s, [Ev.connect E]) := by
  simp [get_connection, gcAttempt, h1, h2]

lemma gc_first_demand (env : Env) (s : St) (u : String) (h1 : s.engine = none)
    (h2 : env.dbUrl = some u) (h3 : env.connect s.nextId = Except.ok ()) :
    get_connection env s =
      (Except.ok s.nextId, St.mk (some s.nextId) (s.nextId + 1),
       [Ev.create s.nextId, Ev.connect s.nextId]) := by
  simp [get_connection, gcAttempt, h1, h2, h3]

lemma gc_recover_nourl (env : Env) (s : St) (E : Nat) (c : String)
    (h1 : s.engine = some E) (h2 : env.connect E = Except.error c)
    (h3 : env.dbUrl = none) :
    get_connection env s =
      (Except.error (SqlError.configError dbUrlMissingMsg), s, [Ev.connect E, Ev.dispose E]) := by
  simp [get_connection, gcAttempt, gcRecover, h1, h2, h3]

lemma gc_recover_ok (env : Env) (s : St) (E : Nat) (c : String) (u : String)
    (h1 : s.engine = some E) (h2 : env.connect E = Except.error c)
    (h3 : env.dbUrl = some u) (h4 : env.connect s.nextId = Except.ok ()) :
    get_connection env s =
      (Except.ok s.nextId, St.mk (some s.nextId) (s.nextId + 1),
       [Ev.connect E, Ev.dispose E, Ev.create s.nextId, Ev.connect s.nextId]) := by
  simp [get_connection, gcAttempt, gcRecover, h1, h2, h3, h4]

lemma gc_recover_fail (env : Env) (s : St) (E : Nat) (c c2 : String) (u : String)
    (h1 : s.engine = some E) (h2 : env.connect E = Except.error c)
    (h3 : env.dbUrl = some u) (h4 : env.connect s.nextId = Except.error c2) :
    get_connection env s =
      (Except.error (SqlError.connError c2), St.mk (some s.nextId) (s.nextId + 1),
       [Ev.connect E, Ev.dispose E, Ev.create s.nextId, Ev.connect s.nextId]) := by
  simp [get_connection, gcAttempt, gcRecover, h1, h2, h3, h4]

lemma gc_fresh_fail_ok (env : Env) (s : St) (c : String) (u : String)
    (h1 : s.engine = none) (h2 : env.dbUrl = some u)
    (h3 : env.connect s.nextId = Except.error c)
    (h4 : env.connect (s.nextId + 1) = Except.ok ()) :
    get_connection env s =
      (Except.ok (s.nextId + 1), St.mk (some (s.nextId + 1)) (s.nextId + 2),
       [Ev.create s.nextId, Ev.connect s.nextId, Ev.dispose s.nextId,
        Ev.create (s.nextId + 1), Ev.connect (s.nextId + 1)]) := by
  simp [get_connection, gcAttempt, gcRecover, h1, h2, h3, h4]

lemma gc_fresh_fail_fail (env : Env) (s : St) (c c2 : String) (u : String)
    (h1 : s.engine = none) (h2 : env.dbUrl = some u)
    (h3 : env.connect s.nextId = Except.error c)
    (h4 : env.connect (s.nextId + 1) = Except.error c2) :
    get_connection env s =
      (Except.error (SqlError.connError c2), St.mk (some (s.nextId + 1)) (s.nextId + 2),
       [Ev.create s.nextId, Ev.connect s.nextId, Ev.dispose s.nextId,
        Ev.create (s.nextId + 1), Ev.connect (s.nextId + 1)]) := by
  simp [get_connection, gcAttempt, gcRecover, h1, h2, h3, h4]


/-- C5: `get_connection` fails with the configuration error when no
database URL is configured (and attempts no connection); when the first
connection attempt on the current engine fails it disposes that engine,
constructs a brand-new one, and makes exactly one more connection
attempt — two attempts in total — propagating the connection error with
the retry's underlying cause when that retry also fails; and the
swallowed disposal outcome has no effect on any of this. -/
theorem C5_acquire_contract :
    (∀ env (s : St), s.engine = none → env.dbUrl = none →
       (get_connection env s).1 = Except.error (SqlError.configError dbUrlMissingMsg)
       ∧ numConnects (get_connection env s).2.2 = 0)
    ∧ (∀ env (s : St) E c u, s.engine = some E → env.connect E = Except.error c →
         env.dbUrl = some u →
         (get_connection env s).2.2 =
           [Ev.connect E, Ev.dispose E, Ev.create s.nextId, Ev.connect s.nextId]
         ∧ numConnects (get_connection env s).2.2 = 2
         ∧ (∀ c2, env.connect s.nextId = Except.error c2 →
              (get_connection env s).1 = Except.error (SqlError.connError c2)))
    ∧ (∀ env (s : St) f,
         get_connection (Env.mk env.dbUrl env.connect f env.run) s = get_connection env s) := by
  refine ⟨?_, ?_, ?_⟩
  · intro env s h1 h2
    rw [gc_no_url env s h1 h2]
    exact ⟨rfl, rfl⟩
  · intro env s E c u h1 h2 h3
    cases h4 : env.connect s.nextId with
    | ok a =>
      rw [gc_recover_ok env s E c u h1 h2 h3 h4]
      refine ⟨rfl, rfl, ?_⟩
      intro c2 h5
      exact Except.noConfusion h5
    | error c2 =>
      rw [gc_recover_fail env s E c c2 u h1 h2 h3 h4]
      refine ⟨rfl, rfl, ?_⟩
      intro c3 h5
      injection h5 with h6
      rw [h6]
  · intro env s f
    rfl

theorem C5_acquire_contract_witness :
    ((get_connection envW2 (St.mk none 0)).1 =
        Except.error (SqlError.configError dbUrlMissingMsg)
      ∧ numConnects (get_connection envW2 (St.mk none 0)).2.2 = 0)
    ∧ ((get_connection envFail (St.mk (some 5) 6)).2.2 =
         [Ev.connect 5, Ev.dispose 5, Ev.create 6, Ev.connect 6]
       ∧ numConnects (get_connection envFail (St.mk (some 5) 6)).2.2 = 2
       ∧ (get_connection envFail (St.mk (some 5) 6)).1 =
           Except.error (SqlError.connError "down"))
    ∧ get_connection (Env.mk envW1.dbUrl envW1.connect (fun _ => true) envW1.run)
        (St.mk none 0) = get_connection envW1 (St.mk none 0) :=
  ⟨C5_acquire_contract.1 envW2 (St.mk none 0) rfl rfl,
   ⟨(C5_acquire_contract.2.1 envFail (St.mk (some 5) 6) 5 "down" "sqlite:///latest_db.db" rfl rfl rfl).1,
    (C5_acquire_contract.2.1 envFail (St.mk (some 5) 6) 5 "down" "sqlite:///latest_db.db" rfl rfl rfl).2.1,
    (C5_acquire_contract.2.1 envFail (St.mk (some 5) 6) 5 "down" "sqlite:///latest_db.db" rfl rfl rfl).2.2 "down" rfl⟩,
   C5_acquire_contract.2.2 envW1 (St.mk none 0) (fun _ => true)⟩

lemma liveAfter_append (live : List Nat) (t1 t2 : List Ev) :
    liveAfter live (t1 ++ t2) = liveAfter (liveAfter live t1) t2 := by
  induction t1 generalizing live with
  | nil => rfl
  | cons ev tr ih => simp [liveAfter, ih]

lemma boundedFrom_append (live : List Nat) (t1 t2 : List Ev)
    (h1 : boundedFrom live t1) (h2 : boundedFrom (liveAfter live t1) t2) :
    boundedFrom live (t1 ++ t2) := by
  intro n
  rw [List.take_append_eq_append_take, liveAfter_append]
  by_cases h : n ≤ t1.length
  · have hz : n - t1.length = 0 := by omega
    rw [hz]
    simpa [liveAfter] using h1 n
  · have ht : t1.take n = t1 := List.take_of_length_le (by omega)
    rw [ht]
    exact h2 (n - t1.length)

lemma stInv_nil (s : St) (h : ∀ id, s.engine = some id → id < s.nextId) :
    stInv s [] :=
  ⟨by simp, by simp, by simp, h⟩

lemma stInv_single (nid : Nat) : stInv (St.mk (some nid) (nid + 1)) [nid] := by
  refine ⟨by simp, ?_, ?_, ?_⟩
  · intro id hm
    simp at hm
    simp [hm]
  · intro id hm
    simp at hm
    subst hm
    exact Nat.lt_succ_self _
  · intro id hm
    injection hm with hm'
    subst hm'
    exact Nat.lt_succ_self _

lemma live_nil_of_engine_none (s : St) (live : List Nat)
    (h : ∀ id ∈ live, s.engine = some id) (he : s.engine = none) : live = [] := by
  cases live with
  | nil => rfl
  | cons a l =>
    have := h a (List.mem_cons_self a l)
    rw [he] at this
    exact Option.noConfusion this

lemma live_shape (live : List Nat) (E : Nat) (hlen : live.length ≤ 1)
    (hsub : ∀ id ∈ live, id = E) : live = [] ∨ live = [E] := by
  cases live with
  | nil => exact Or.inl rfl
  | cons a l =>
    cases l with
    | nil => exact Or.inr (by rw [hsub a (by simp)])
    | cons b m => simp at hlen

lemma gc_live_step (env : Env) (s : St) (live : List Nat) (h : stInv s live) :
    boundedFrom live (get_connection env s).2.2
    ∧ stInv (get_connection env s).2.1 (liveAfter live (get_connection env s).2.2) := by
  obtain ⟨hlen, hsub, hfresh, hefresh⟩ := h
  cases hs : s.engine with
  | none =>
    have hl : live = [] := live_nil_of_engine_none s live hsub hs
    subst hl
    cases hd : env.dbUrl with
    | none =>
      rw [gc_no_url env s hs hd]
      exact ⟨fun n => by simp [liveAfter], stInv_nil s hefresh⟩
    | some u =>
      cases hc : env.connect s.nextId with
      | ok a =>
        rw [gc_first_demand env s u hs hd hc]
        dsimp only
        constructor
        · intro n
          rcases n with _ | _ | n <;> simp [liveAfter, applyEv]
        · have hl2 : liveAfter [] [Ev.create s.nextId, Ev.connect s.nextId] = [s.nextId] := by
            simp [liveAfter, applyEv]
          rw [hl2]
          exact stInv_single s.nextId
      | error c =>
        cases hc2 : env.connect (s.nextId + 1) with
        | ok a =>
          rw [gc_fresh_fail_ok env s c u hs hd hc hc2]
          dsimp only
          constructor
          · intro n
            rcases n with _ | _ | _ | _ | _ | n <;> simp [liveAfter, applyEv]
          · have hl2 : liveAfter []
                [Ev.create s.nextId, Ev.connect s.nextId, Ev.dispose s.nextId,
                 Ev.create (s.nextId + 1), Ev.connect (s.nextId + 1)] = [s.nextId + 1] := by
              simp [liveAfter, applyEv]
            rw [hl2]
            exact stInv_single (s.nextId + 1)
        | error c2 =>
          rw [gc_fresh_fail_fail env s c c2 u hs hd hc hc2]
          dsimp only
          constructor
          · intro n
            rcases n with _ | _ | _ | _ | _ | n <;> simp [liveAfter, applyEv]
          · have hl2 : liveAfter []
                [Ev.create s.nextId, Ev.connect s.nextId, Ev.dispose s.nextId,
                 Ev.create (s.nextId + 1), Ev.connect (s.nextId + 1)] = [s.nextId + 1] := by
              simp [liveAfter, applyEv]
            rw [hl2]
            exact stInv_single (s.nextId + 1)
  | some E =>
    have hsubE : ∀ id ∈ live, id = E := by
      intro id hm
      have hx := hsub id hm
      rw [hs] at hx
      injection hx with hx'
      exact hx'.symm
    rcases live_shape live E hlen hsubE with hl | hl <;> subst hl
    · cases hc : env.connect E with
      | ok a =>
        rw [gc_reuse env s E hs hc]
        dsimp only
        refine ⟨fun n => by rcases n with _ | n <;> simp [liveAfter, applyEv], ?_⟩
        have hl2 : liveAfter ([] : List Nat) [Ev.connect E] = [] := by
          simp [liveAfter, applyEv]
        rw [hl2]
        exact stInv_nil s hefresh
      | error c =>
        cases hd : env.dbUrl with
        | none =>
          rw [gc_recover_nourl env s E c hs hc hd]
          dsimp only
          refine ⟨fun n => by rcases n with _ | _ | n <;> simp [liveAfter, applyEv], ?_⟩
          have hl2 : liveAfter ([] : List Nat) [Ev.connect E, Ev.dispose E] = [] := by
            simp [liveAfter, applyEv]
          rw [hl2]
          exact stInv_nil s hefresh
        | some u =>
          cases hc2 : env.connect s.nextId with
          | ok a =>
            rw [gc_recover_ok env s E c u hs hc hd hc2]
            dsimp only
            constructor
            · intro n
              rcases n with _ | _ | _ | _ | n <;> simp [liveAfter, applyEv]
            · have hl2 : liveAfter []
                  [Ev.connect E, Ev.dispose E, Ev.create s.nextId, Ev.connect s.nextId]
                    = [s.nextId] := by
                simp [liveAfter, applyEv]
              rw [hl2]
              exact stInv_single s.nextId
          | error c2 =>
            rw [gc_recover_fail env s E c c2 u hs hc hd hc2]
            dsimp only
            constructor
            · intro n
              rcases n with _ | _ | _ | _ | n <;> simp [liveAfter, applyEv]
            · have hl2 : liveAfter []
                  [Ev.connect E, Ev.dispose E, Ev.create s.nextId, Ev.connect s.nextId]
                    = [s.nextId] := by
                simp [liveAfter, applyEv]
              rw [hl2]
              exact stInv_single s.nextId
    · cases hc : env.connect E with
      | ok a =>
        rw [gc_reuse env s E hs hc]
        dsimp only
        refine ⟨fun n => by rcases n with _ | n <;> simp [liveAfter, applyEv], ?_⟩
        have hl2 : liveAfter [E] [Ev.connect E] = [E] := by
          simp [liveAfter, applyEv]
        rw [hl2]
        exact ⟨hlen, hsub, hfresh, hefresh⟩
      | error c =>
        cases hd : env.dbUrl with
        | none =>
          rw [gc_recover_nourl env s E c hs hc hd]
          dsimp only
          refine ⟨fun n => by rcases n with _ | _ | n <;> simp [liveAfter, applyEv], ?_⟩
          have hl2 : liveAfter [E] [Ev.connect E, Ev.dispose E] = [] := by
            simp [liveAfter, applyEv]
          rw [hl2]
          exact stInv_nil s hefresh
        | some u =>
          cases hc2 : env.connect s.nextId with
          | ok a =>
            rw [gc_recover_ok env s E c u hs hc hd hc2]
            dsimp only
            constructor
            · intro n
              rcases n with _ | _ | _ | _ | n <;> simp [liveAfter, applyEv]
            · have hl2 : liveAfter [E]
                  [Ev.connect E, Ev.dispose E, Ev.create s.nextId, Ev.connect s.nextId]
                    = [s.nextId] := by
                simp [liveAfter, applyEv]
              rw [hl2]
              exact stInv_single s.nextId
          | error c2 =>
            rw [gc_recover_fail env s E c c2 u hs hc hd hc2]
            dsimp only
            constructor
            · intro n
              rcases n with _ | _ | _ | _ | n <;> simp [liveAfter, applyEv]
            · have hl2 : liveAfter [E]
                  [Ev.connect E, Ev.dispose E, Ev.create s.nextId, Ev.connect s.nextId]
                    = [s.nextId] := by
                simp [liveAfter, applyEv]
              rw [hl2]
              exact stInv_single s.nextId


lemma runCalls_snd (env : Env) (rest : List Env) (s : St) :
    runCalls (env :: rest) s =
      ((runCalls rest (get_connection env s).2.1).1,
       (get_connection env s).2.2 ++ (runCalls rest (get_connection env s).2.1).2) := rfl

lemma runCalls_bounded : ∀ (envs : List Env) (s : St) (live : List Nat),
    stInv s live → boundedFrom live (runCalls envs s).2 := by
  intro envs
  induction envs with
  | nil =>
    intro s live h n
    simpa [runCalls, liveAfter] using h.1
  | cons env rest ih =>
    intro s live h
    obtain ⟨hb, hinv⟩ := gc_live_step env s live h
    rw [runCalls_snd]
    exact boundedFrom_append live _ _ hb (ih _ _ hinv)

/-- C8: at every point of every sequence of `get_connection` calls
starting from the initial process state, at most one live engine exists;
moreover the engine is reused when a connection succeeds on it (no
creation or disposal events), it is created on first demand, and on the
recovery path the prior engine's disposal precedes the replacement's
construction in the event trace. -/
theorem C8_single_live_engine :
    (∀ (envs : List Env) (n : Nat),
       (liveAfter [] (((runCalls envs (St.mk none 0)).2).take n)).length ≤ 1)
    ∧ (∀ env (s : St) E, s.engine = some E → env.connect E = Except.ok () →
         get_connection env s = (Except.ok E, s, [Ev.connect E]))
    ∧ (∀ env (s : St) u, s.engine = none → env.dbUrl = some u →
         env.connect s.nextId = Except.ok () →
         get_connection env s =
           (Except.ok s.nextId, St.mk (some s.nextId) (s.nextId + 1),
            [Ev.create s.nextId, Ev.connect s.nextId]))
    ∧ (∀ env (s : St) E c u, s.engine = some E → env.connect E = Except.error c →
         env.dbUrl = some u →
         (get_connection env s).2.2 =
           [Ev.connect E, Ev.dispose E, Ev.create s.nextId, Ev.connect s.nextId]) := by
  refine ⟨?_, gc_reuse, gc_first_demand, ?_⟩
  · intro envs n
    have hinv : stInv (St.mk none 0) [] :=
      stInv_nil _ (fun id h => Option.noConfusion h)
    exact runCalls_bounded envs (St.mk none 0) [] hinv n
  · intro env s E c u h1 h2 h3
    cases h4 : env.connect s.nextId with
    | ok a => rw [gc_recover_ok env s E c u h1 h2 h3 h4]
    | error c2 => rw [gc_recover_fail env s E c c2 u h1 h2 h3 h4]

theorem C8_single_live_engine_witness :
    (liveAfter [] (((runCalls [envW1, envFail, envW2] (St.mk none 0)).2).take 3)).length ≤ 1
    ∧ get_connection envW1 (St.mk (some 0) 1) = (Except.ok 0, St.mk (some 0) 1, [Ev.connect 0])
    ∧ get_connection envW1 (St.mk none 0) =
        (Except.ok 0, St.mk (some 0) 1, [Ev.create 0, Ev.connect 0])
    ∧ (get_connection envFail (St.mk (some 5) 6)).2.2 =
        [Ev.connect 5, Ev.dispose 5, Ev.create 6, Ev.connect 6] :=
  ⟨C8_single_live_engine.1 [envW1, envFail, envW2] 3,
   C8_single_live_engine.2.1 envW1 (St.mk (some 0) 1) 0 rfl rfl,
   C8_single_live_engine.2.2.1 envW1 (St.mk none 0) "sqlite:///latest_db.db" rfl rfl rfl,
   C8_single_live_engine.2.2.2 envFail (St.mk (some 5) 6) 5 "down" "sqlite:///latest_db.db" rfl rfl rfl⟩

end SqlSrv
